import Mathlib

/-!
Verification of the Epidemiologist Data Science Tool dashboard
(src/interactive_dashboard.py) against its specification.

Embedding conventions: the numpy global pseudorandom generator is
modelled as an explicit state of type Nat advanced by one
linear-congruential step per scalar draw; uniform floats are modelled as
rationals; pandas frames are modelled as lists of structures; st.error
followed by st.stop is modelled as an early Except.error return.
-/

namespace Dashboard

/-- One step of the modelled global pseudorandom generator.  It stands in
for the numpy MT19937 stream: the verified claims depend only on value
ranges and on deterministic reseeding, never on exact stream values. -/
def npNext (s : Nat) : Nat :=
  (6364136223846793005 * s + 1442695040888963407) % 18446744073709551616

/-- State of the modelled global generator after k draws from a seed. -/
def npState (seed : Nat) : Nat → Nat
  | 0 => seed
  | k + 1 => npNext (npState seed k)

/-- Fraction in [0,1) extracted from a generator state, modelling one
uniform float draw in [0,1). -/
def unitFrac (s : Nat) : ℚ :=
  ((s % 4294967296 : Nat) : ℚ) / 4294967296

/-- np.random.randint(lo, hi): integer uniform on [lo, hi). -/
def np_randint (lo hi s : Nat) : Nat := lo + s % (hi - lo)

/-- np.random.uniform(lo, hi): uniform on [lo, hi). -/
def np_uniform (lo hi : ℚ) (s : Nat) : ℚ := lo + unitFrac s * (hi - lo)

/-- One record of the Learning-section DataFrame (lines 44-53 of
src/interactive_dashboard.py).  Dates are day numbers since 1970-01-01. -/
structure Case where
  patient_id : Nat
  age : Nat
  sex : String
  latitude : ℚ
  longitude : ℚ
  infected : Nat
  infection_type : String
  diagnosis_date : Nat
  deriving DecidableEq

/-- The fixed infection-type labels (lines 35-40). -/
def mobile_clinic_infection_types : List String :=
  ["Waterborne Infections", "Vector-Borne Diseases", "Respiratory Infections",
   "Gastrointestinal Infections", "Skin Infections", "Trauma/Injuries",
   "Chronic Conditions", "Nutritional Deficiencies", "Vaccine-Preventable Diseases",
   "Hygiene and Sanitation-Related Issues", "Other"]

/-- Day number of the fixed epoch 2025-10-01 of line 52, counted from
1970-01-01. -/
def epoch_2025_10_01 : Nat := 20362

/-- Row j (0-based) of the Learning-section DataFrame.  Columns are drawn
in source order (Age, Sex, Latitude, Longitude, Infected, Type of
Infection, Diagnosis Date), one generator step per scalar, starting from
the state reseeded to 42; infection_rate is the slider percentage, used
as probability infection_rate / 100 exactly as at line 50. -/
def mkCase (n : Nat) (infection_rate : ℚ) (days : Nat) (j : Nat) : Case :=
  { patient_id := j + 1
    age := np_randint 0 90 (npState 42 (j + 1))
    sex := if npState 42 (n + j + 1) % 2 = 0 then "M" else "F"
    latitude := np_uniform (-30) (-59/2) (npState 42 (2*n + j + 1))
    longitude := np_uniform (51/2) (53/2) (npState 42 (3*n + j + 1))
    infected :=
      if unitFrac (npState 42 (4*n + j + 1)) < 1 - infection_rate / 100 then 0 else 1
    infection_type :=
      mobile_clinic_infection_types.getD (npState 42 (5*n + j + 1) % 11) "Other"
    diagnosis_date := epoch_2025_10_01 + np_randint 0 days (npState 42 (6*n + j + 1)) }

/-- The Learning-section DataFrame `data` (lines 43-53).  The argument
rngState is the incoming global generator state; np.random.seed(42) at
line 43 discards it and reseeds to 42 before any draw, which is why the
body never reads rngState. -/
def simulated_data (rngState : Nat) (num_cases : Nat) (infection_rate : ℚ)
    (days : Nat) : List Case :=
  (List.range num_cases).map (mkCase num_cases infection_rate days)

theorem unitFrac_nonneg (s : Nat) : 0 ≤ unitFrac s := by
  unfold unitFrac
  positivity

theorem unitFrac_lt_one (s : Nat) : unitFrac s < 1 := by
  unfold unitFrac
  rw [div_lt_one (by norm_num)]
  exact_mod_cast Nat.mod_lt s (by norm_num)

theorem np_uniform_mem (lo hi : ℚ) (h : lo ≤ hi) (s : Nat) :
    lo ≤ np_uniform lo hi s ∧ np_uniform lo hi s ≤ hi := by
  unfold np_uniform
  constructor
  · nlinarith [unitFrac_nonneg s, unitFrac_lt_one s]
  · nlinarith [unitFrac_nonneg s, unitFrac_lt_one s]

/-- Claim C1: for fixed slider parameters (number of cases, infection
rate, days), two invocations of the simulated-case dataset generation
produce identical datasets — every column is equal row-for-row —
because np.random.seed(42) reseeds the global generator before drawing,
so the incoming global generator states g1 and g2 are irrelevant. -/
theorem simulated_data_deterministic (g1 g2 num_cases : Nat)
    (infection_rate : ℚ) (days : Nat) :
    simulated_data g1 num_cases infection_rate days =
      simulated_data g2 num_cases infection_rate days := rfl

/-- Claim C2: for every positive case count (and positive day span, as
the days slider guarantees), the generated dataset has exactly num_cases
rows, Patient ID values 1..num_cases in order (hence unique), and every
row has Age in [0,90), Sex in {M,F}, Latitude in [-30,-29.5], Longitude
in [25.5,26.5], Infected in {0,1}, and Diagnosis Date equal to the fixed
epoch 2025-10-01 plus an offset in [0, days). -/
theorem simulated_data_shape (g num_cases : Nat) (infection_rate : ℚ) (days : Nat)
    (hn : 0 < num_cases) (hd : 0 < days) :
    (simulated_data g num_cases infection_rate days).length = num_cases ∧
    (simulated_data g num_cases infection_rate days).map (fun c => c.patient_id)
      = (List.range num_cases).map (fun j => j + 1) ∧
    ((simulated_data g num_cases infection_rate days).map (fun c => c.patient_id)).Nodup ∧
    ∀ c ∈ simulated_data g num_cases infection_rate days,
      c.age < 90 ∧ (c.sex = "M" ∨ c.sex = "F") ∧
      -30 ≤ c.latitude ∧ c.latitude ≤ -59/2 ∧
      51/2 ≤ c.longitude ∧ c.longitude ≤ 53/2 ∧
      (c.infected = 0 ∨ c.infected = 1) ∧
      epoch_2025_10_01 ≤ c.diagnosis_date ∧
      c.diagnosis_date < epoch_2025_10_01 + days := by
  have hids : (simulated_data g num_cases infection_rate days).map (fun c => c.patient_id)
      = (List.range num_cases).map (fun j => j + 1) := by
    simp only [simulated_data, List.map_map]
    rfl
  refine ⟨by simp [simulated_data], hids, ?_, ?_⟩
  · rw [hids]
    exact List.Nodup.map (fun a b hab => by omega) (List.nodup_range num_cases)
  · intro c hc
    simp only [simulated_data, List.mem_map, List.mem_range] at hc
    obtain ⟨j, hj, rfl⟩ := hc
    refine ⟨?_, ?_, ?_, ?_, ?_, ?_, ?_, ?_, ?_⟩
    · simp only [mkCase, np_randint]
      omega
    · simp only [mkCase]
      split <;> simp
    · exact (np_uniform_mem (-30) (-59/2) (by norm_num) _).1
    · exact (np_uniform_mem (-30) (-59/2) (by norm_num) _).2
    · exact (np_uniform_mem (51/2) (53/2) (by norm_num) _).1
    · exact (np_uniform_mem (51/2) (53/2) (by norm_num) _).2
    · simp only [mkCase]
      split <;> simp
    · simp [mkCase]
    · simp only [mkCase, np_randint]
      have h1 : npState 42 (6 * num_cases + j + 1) % (days - 0) < days - 0 :=
        Nat.mod_lt _ (by omega)
      omega

/-- Witness for C2 at concrete slider values. -/
theorem simulated_data_shape_witness :
    (simulated_data 0 60 10 30).length = 60 :=
  (simulated_data_shape 0 60 10 30 (by norm_num) (by norm_num)).1

/-- The data handed to the Learning-section HeatmapLayer (line 83):
data[data[Infected] == 1]. -/
def layer_data (data : List Case) : List Case :=
  data.filter (fun c => c.infected == 1)

/-- Claim C9: the density-weighted heatmap layer of the Learning view is
computed over exactly the cases whose Infected flag equals 1 — a case is
in the layer's data iff it is in the dataset with Infected = 1 (so every
Infected = 0 case is excluded). -/
theorem layer_data_spec (data : List Case) (c : Case) :
    c ∈ layer_data data ↔ c ∈ data ∧ c.infected = 1 := by
  simp [layer_data]

/-- Insertion into an ascending list of dates, used to model the sorted
group keys produced by groupby. -/
def insertSorted (d : Nat) : List Nat → List Nat
  | [] => [d]
  | x :: xs => if d ≤ x then d :: x :: xs else x :: insertSorted d xs

/-- Ascending sort of the distinct group keys. -/
def sortDates (l : List Nat) : List Nat := l.foldr insertSorted []

/-- The Infections Over Time series (line 60):
data.groupby("Diagnosis Date")["Infected"].sum() — for each distinct
diagnosis date, in ascending order, the sum of the Infected flags of the
rows with that exact date. -/
def time_series (data : List Case) : List (Nat × Nat) :=
  (sortDates ((data.map (fun c => c.diagnosis_date)).dedup)).map
    (fun d => (d, ((data.filter (fun c => c.diagnosis_date == d)).map
      (fun c => c.infected)).sum))

/-- The quantity the claim describes: the running total of Infected flags
over all cases with diagnosis date at most d.  Stated from the claim's
words, for comparison with time_series, which the source computes
per-date (no cumulative sum appears at lines 60-65). -/
def cumulative_infected (data : List Case) (d : Nat) : Nat :=
  ((data.filter (fun c => decide (c.diagnosis_date ≤ d))).map
    (fun c => c.infected)).sum

/-- A concrete two-row dataset: one infected case on day 0 and one on
day 1 (dates as raw day numbers). -/
def exCase (d inf : Nat) : Case :=
  { patient_id := 1, age := 30, sex := "M", latitude := 0, longitude := 0,
    infected := inf, infection_type := "Other", diagnosis_date := d }

def exCases : List Case := [exCase 0 1, exCase 1 1]

/-- Claim C4, counterexample: the series is not a running total.  On a
dataset with one infected case on day 0 and one on day 1, the series
value at day 1 is 1, while the cumulative total up to day 1 is 2. -/
theorem time_series_not_cumulative :
    ¬ ∀ p ∈ time_series exCases, p.2 = cumulative_infected exCases p.1 := by
  decide

/-- Claim C4 (amended): each entry of the infections-over-time series is
the per-date total — for every date d in the series, the value at d is
the sum of Infected flags over the cases whose diagnosis date equals d
(not a cumulative sum over dates up to d). -/
theorem time_series_values (data : List Case) :
    ∀ p ∈ time_series data,
      p.2 = ((data.filter (fun c => c.diagnosis_date == p.1)).map
        (fun c => c.infected)).sum := by
  intro p hp
  obtain ⟨d, _, rfl⟩ := List.mem_map.1 hp
  rfl

/-- Witness for the amended C4 at the concrete dataset. -/
theorem time_series_values_witness :
    (1 : Nat) = ((exCases.filter (fun c => c.diagnosis_date == 0)).map
      (fun c => c.infected)).sum := by
  have h := time_series_values exCases (0, 1) (by decide)
  simpa using h

/-- Modelled from the spec: the Compartmental Model Engine of spec
section 4.2 is not among the files under src/ (only the dashboard file
is); its per-day update rule is transcribed from the spec —
new_infected = beta * S * I / total_population, new_recovered =
gamma * I — with counts as exact rationals in place of floats. -/
def sir_step (N beta gamma : ℚ) (s : ℚ × ℚ × ℚ) : ℚ × ℚ × ℚ :=
  (s.1 - beta * s.1 * s.2.1 / N,
   s.2.1 + beta * s.1 * s.2.1 / N - gamma * s.2.1,
   s.2.2 + gamma * s.2.1)

/-- Modelled from the spec: the (S, I, R) state after k update steps from
the initial condition (N - I0 - R0, I0, R0). -/
def sir_state (N beta gamma I0 R0 : ℚ) : Nat → ℚ × ℚ × ℚ
  | 0 => (N - I0 - R0, I0, R0)
  | k + 1 => sir_step N beta gamma (sir_state N beta gamma I0 R0 k)

/-- Modelled from the spec: a run of num_days records, day 0 being the
first update step from the initial condition. -/
def sir_run (N beta gamma I0 R0 : ℚ) (num_days : Nat) : List (ℚ × ℚ × ℚ) :=
  (List.range num_days).map (fun k => sir_state N beta gamma I0 R0 (k + 1))

theorem sir_state_sum (N beta gamma I0 R0 : ℚ) (k : Nat) :
    (sir_state N beta gamma I0 R0 k).1 + (sir_state N beta gamma I0 R0 k).2.1
      + (sir_state N beta gamma I0 R0 k).2.2 = N := by
  induction k with
  | zero =>
    simp only [sir_state]
    ring
  | succ k ih =>
    simp only [sir_state, sir_step]
    linarith [ih]

/-- Claim C3: at every simulated day of a Compartmental Model run,
S + I + R equals the initial total population (exactly, in the rational
model; the float original is conserved up to rounding). -/
theorem sir_conservation (N beta gamma I0 R0 : ℚ) (num_days : Nat) :
    ∀ st ∈ sir_run N beta gamma I0 R0 num_days,
      st.1 + st.2.1 + st.2.2 = N := by
  intro st hst
  obtain ⟨k, _, rfl⟩ := List.mem_map.1 hst
  exact sir_state_sum N beta gamma I0 R0 (k + 1)

/-- Witness for C3: the first day of the spec's example run
(population 1000, beta 0.3, gamma 0.1, one initial infected, 5 days). -/
theorem sir_conservation_witness :
    (sir_state 1000 (3/10) (1/10) 1 0 1).1 + (sir_state 1000 (3/10) (1/10) 1 0 1).2.1
      + (sir_state 1000 (3/10) (1/10) 1 0 1).2.2 = 1000 :=
  sir_conservation 1000 (3/10) (1/10) 1 0 5 (sir_state 1000 (3/10) (1/10) 1 0 1)
    (List.mem_map.2 ⟨0, List.mem_range.2 (by norm_num), rfl⟩)

/-- One row of an uploaded CSV as read at line 131.  date_raw models the
Diagnosis Date cell after pd.to_datetime(errors=coerce) at line 141:
some d for a parseable date (as a day number), none for NaT.  type_value
is the Type of Infection cell, meaningful only when that column is among
the upload's columns. -/
structure Row where
  latitude : ℚ
  longitude : ℚ
  date_raw : Option Nat
  type_value : String
  deriving DecidableEq

/-- An uploaded table: its column names and its rows. -/
structure Upload where
  cols : List String
  rows : List Row
  deriving DecidableEq

/-- A row of the cleaned working set, with Diagnosis Date parsed. -/
structure CRow where
  latitude : ℚ
  longitude : ℚ
  diagnosis_date : Nat
  type_of_infection : String
  deriving DecidableEq

/-- The required columns of line 136. -/
def required_cols : List String := ["Latitude", "Longitude", "Diagnosis Date"]

/-- The required columns absent from the upload (line 138:
required_cols - set(data.columns)). -/
def missing_cols (cols : List String) : List String :=
  required_cols.filter (fun c => ! cols.contains c)

def clean_row (r : Row) (d : Nat) : CRow :=
  ⟨r.latitude, r.longitude, d, r.type_value⟩

/-- Lines 141-142: coerce Diagnosis Date, then drop the rows where it
came out NaT. -/
def drop_bad_dates (rows : List Row) : List CRow :=
  rows.filterMap (fun r => (r.date_raw).map (clean_row r))

/-- Lines 144-146: when the Type of Infection column is absent, add it
with every row set to "Unknown"; otherwise leave columns and rows
alone. -/
def fill_type (cols : List String) (rows : List CRow) :
    List String × List CRow :=
  if cols.contains "Type of Infection" then (cols, rows)
  else (cols ++ ["Type of Infection"],
        rows.map (fun r => { r with type_of_infection := "Unknown" }))

/-- The cleaned working set: its column names and rows. -/
structure Working where
  cols : List String
  rows : List CRow
  deriving DecidableEq

/-- Lines 136-146: the ingestion path of the Doing section.  st.error
followed by st.stop on missing required columns is modelled as
Except.error carrying the missing names; on success the cleaned working
set that all later summaries, charts and heatmaps read is returned. -/
def process_upload (u : Upload) : Except (List String) Working :=
  if missing_cols u.cols = [] then
    let p := fill_type u.cols (drop_bad_dates u.rows)
    Except.ok ⟨p.1, p.2⟩
  else Except.error (missing_cols u.cols)

/-- Claim C5: a column is reported missing iff it is required and absent;
when any required column is absent, ingestion stops with an error naming
exactly the missing columns (so no summary, chart or heatmap is
computed); when all are present, no such error is raised. -/
theorem process_upload_required (u : Upload) :
    (∀ c, c ∈ missing_cols u.cols ↔ c ∈ required_cols ∧ c ∉ u.cols) ∧
    (missing_cols u.cols ≠ [] →
      process_upload u = Except.error (missing_cols u.cols)) ∧
    (missing_cols u.cols = [] → ∃ w, process_upload u = Except.ok w) := by
  refine ⟨?_, ?_, ?_⟩
  · intro c
    simp [missing_cols, List.mem_filter]
  · intro h
    simp [process_upload, h]
  · intro h
    refine ⟨⟨(fill_type u.cols (drop_bad_dates u.rows)).1,
      (fill_type u.cols (drop_bad_dates u.rows)).2⟩, ?_⟩
    simp [process_upload, h]

def exUploadMissingLat : Upload := ⟨["Longitude", "Diagnosis Date"], []⟩

/-- Witness for C5: an upload without a Latitude column is rejected with
exactly that column named. -/
theorem process_upload_required_witness :
    process_upload exUploadMissingLat = Except.error ["Latitude"] :=
  (process_upload_required exUploadMissingLat).2.1 (by decide)

/-- Claim C6: every uploaded row whose Diagnosis Date parses to some d is
retained, unchanged apart from the date now being parsed, and every row
of the cleaned working set comes from an uploaded row whose Diagnosis
Date parsed — so rows with unparseable dates are removed and every
retained row carries a valid parsed date. -/
theorem drop_bad_dates_spec (rows : List Row) :
    (∀ r ∈ rows, ∀ d, r.date_raw = some d →
      clean_row r d ∈ drop_bad_dates rows) ∧
    (∀ c ∈ drop_bad_dates rows, ∃ r ∈ rows,
      r.date_raw = some c.diagnosis_date ∧ c = clean_row r c.diagnosis_date) := by
  constructor
  · intro r hr d hd
    exact List.mem_filterMap.2 ⟨r, hr, by simp [hd]⟩
  · intro c hc
    obtain ⟨r, hr, he⟩ := List.mem_filterMap.1 hc
    cases hdr : r.date_raw with
    | none => simp [hdr] at he
    | some d =>
      rw [hdr] at he
      simp at he
      subst he
      exact ⟨r, hr, hdr, rfl⟩

def exRowGood : Row := ⟨0, 0, some 7, "Flu"⟩

def exRowBad : Row := ⟨0, 0, none, "Flu"⟩

/-- Witness for C6: a row with a parseable date survives the drop. -/
theorem drop_bad_dates_witness :
    clean_row exRowGood 7 ∈ drop_bad_dates [exRowGood, exRowBad] :=
  (drop_bad_dates_spec [exRowGood, exRowBad]).1 exRowGood (by simp) 7 rfl

def exUploadNoAge : Upload :=
  ⟨["Latitude", "Longitude", "Diagnosis Date"], [⟨0, 0, some 3, ""⟩]⟩

/-- Claim C7, counterexample: ingestion does not synthesize an absent Age
column.  Processing an upload whose columns are exactly the three
required ones yields a working set whose columns gain only Type of
Infection — no Age (nor Sex) column is created or filled, contradicting
the claim that an absent age column is filled uniformly from [0,90). -/
theorem upload_age_not_synthesized :
    process_upload exUploadNoAge =
      Except.ok ⟨["Latitude", "Longitude", "Diagnosis Date", "Type of Infection"],
        [⟨0, 0, 3, "Unknown"⟩]⟩ ∧
    "Age" ∉ ["Latitude", "Longitude", "Diagnosis Date", "Type of Infection"] := by
  constructor
  · rfl
  · decide

/-- Claim C7 (amended): when the upload passes the required-column check
and has no Type of Infection column, the working set's columns are the
upload's columns plus Type of Infection, and every row's type is the
constant "Unknown"; no other optional column (age, sex) is synthesized —
the output columns are exactly the input columns plus Type of
Infection. -/
theorem upload_type_default (u : Upload) (h : missing_cols u.cols = [])
    (ht : u.cols.contains "Type of Infection" = false) :
    process_upload u =
      Except.ok ⟨u.cols ++ ["Type of Infection"],
        (drop_bad_dates u.rows).map
          (fun r => { r with type_of_infection := "Unknown" })⟩ ∧
    ∀ r ∈ (drop_bad_dates u.rows).map
        (fun r => { r with type_of_infection := "Unknown" }),
      r.type_of_infection = "Unknown" := by
  have ht2 : "Type of Infection" ∉ u.cols := by simpa using ht
  constructor
  · simp [process_upload, h, fill_type, ht2]
  · intro r hr
    obtain ⟨r0, _, rfl⟩ := List.mem_map.1 hr
    rfl

/-- Witness for the amended C7 at a concrete upload. -/
theorem upload_type_default_witness :
    process_upload exUploadNoAge =
      Except.ok ⟨exUploadNoAge.cols ++ ["Type of Infection"],
        (drop_bad_dates exUploadNoAge.rows).map
          (fun r => { r with type_of_infection := "Unknown" })⟩ ∧
    ∀ r ∈ (drop_bad_dates exUploadNoAge.rows).map
        (fun r => { r with type_of_infection := "Unknown" }),
      r.type_of_infection = "Unknown" :=
  upload_type_default exUploadNoAge (by decide) (by decide)

/-- st.slider(label, lo, hi, default): whatever value the user requests,
the widget returns it clamped into [lo, hi] — the UI cannot produce a
value outside the configured range (lines 30-32). -/
def slider (lo hi choice : Nat) : Nat := max lo (min hi choice)

/-- Claim C8, counterexample: the generation at lines 43-53 performs no
validation and cannot fail — invoked with case count 0 it returns an
empty dataset rather than raising a validation error (its result type
has no error outcome at all). -/
theorem generator_no_validation : simulated_data 0 0 (10 : ℚ) 30 = [] := rfl

/-- Claim C8 (amended): the generator itself never validates or fails;
instead invalid parameters are prevented at the UI boundary — the
sliders clamp the case count into [50,1000], the rate percentage into
[1,100] and the day span into [10,100], so the generation only ever
receives a positive count, a Bernoulli probability inside [0,1], and a
positive day span. -/
theorem slider_params_valid (a b c : Nat) :
    0 < slider 50 1000 a ∧
    (0 : ℚ) ≤ (slider 1 100 b : ℚ) / 100 ∧
    (slider 1 100 b : ℚ) / 100 ≤ 1 ∧
    0 < slider 10 100 c := by
  have hb1 : 1 ≤ slider 1 100 b := by
    simp only [slider]
    omega
  have hb2 : slider 1 100 b ≤ 100 := by
    simp only [slider]
    omega
  refine ⟨by simp only [slider]; omega, by positivity, ?_, by simp only [slider]; omega⟩
  rw [div_le_one (by norm_num)]
  exact_mod_cast hb2

/-- Lines 174-177: the heatmap's case subset for the selected infection
type in the Doing view. -/
def filtered_data (selected_type : String) (rows : List CRow) : List CRow :=
  if selected_type ≠ "All" then
    rows.filter (fun r => r.type_of_infection == selected_type)
  else rows

/-- Lines 184-188: the view-state center — the mean of the filtered
latitudes and longitudes when the filtered set is non-empty, else the
fixed fallback (-29.75, 26.0). -/
def view_center (rows : List CRow) : ℚ × ℚ :=
  if 0 < rows.length then
    ((rows.map (fun r => r.latitude)).sum / rows.length,
     (rows.map (fun r => r.longitude)).sum / rows.length)
  else (-119/4, 26)

/-- Claim C10: for every selected infection type, the Doing-view map
center is the mean latitude and longitude of the filtered case set when
that set is non-empty, and the fixed fallback (-29.75, 26.0) when it is
empty — the mean branch is only ever taken on a non-empty set. -/
theorem view_center_spec (selected_type : String) (rows : List CRow) :
    (filtered_data selected_type rows ≠ [] →
      view_center (filtered_data selected_type rows) =
        (((filtered_data selected_type rows).map (fun r => r.latitude)).sum
            / (filtered_data selected_type rows).length,
         ((filtered_data selected_type rows).map (fun r => r.longitude)).sum
            / (filtered_data selected_type rows).length)) ∧
    (filtered_data selected_type rows = [] →
      view_center (filtered_data selected_type rows) = (-119/4, 26)) := by
  constructor
  · intro h
    have hl : 0 < (filtered_data selected_type rows).length :=
      List.length_pos.2 h
    simp [view_center, hl]
  · intro h
    simp [view_center, h]

def exCRow : CRow := ⟨-30, 26, 0, "Flu"⟩

/-- Witness for C10: a singleton filtered set gets the mean center. -/
theorem view_center_spec_witness :
    view_center (filtered_data "Flu" [exCRow]) =
      (((filtered_data "Flu" [exCRow]).map (fun r => r.latitude)).sum
          / (filtered_data "Flu" [exCRow]).length,
       ((filtered_data "Flu" [exCRow]).map (fun r => r.longitude)).sum
          / (filtered_data "Flu" [exCRow]).length) :=
  (view_center_spec "Flu" [exCRow]).1 (by decide)

end Dashboard
